import Mathlib

/-!
Shallow embedding of `src/server.py` (Flask balloon/aircraft proximity
alert server) and proofs about its specification.

Conventions of the embedding:
* Python floats are modelled exactly: finite values as rationals `ℚ`
  (float arithmetic treated as exact), with the non-finite values
  `nan`, `inf`, `-inf` represented by the inductive `PyFloat`.
* JSON `null` is `Option.none`.
* A Python function that can raise an uncaught exception is embedded as a
  function into `Except`; an exception propagating to the caller is the
  `Except.error` constructor.
* External library calls (`scipy.spatial.KDTree`, `geopy.distance.geodesic`)
  are embedded through their documented behaviour:
  `KDTree.query_ball_point(p, r)` returns exactly the indices of stored
  points within Euclidean distance `r` of `p` (a deterministic order; we
  use increasing index order), and `geodesic` raises `ValueError` when a
  latitude is outside `[-90, 90]`, otherwise returning a distance that we
  keep abstract as a function parameter `g`.
-/

set_option autoImplicit false

set_option maxRecDepth 8000
set_option maxHeartbeats 1000000

/-- Decidable equality of `Except` results (for concrete evaluations). -/
instance exceptDecEq {ε α : Type} [DecidableEq ε] [DecidableEq α] :
    DecidableEq (Except ε α) := fun x y =>
  match x, y with
  | .ok a, .ok b =>
      if h : a = b then isTrue (by rw [h])
      else isFalse (fun hc => h (by injection hc))
  | .error e, .error f =>
      if h : e = f then isTrue (by rw [h])
      else isFalse (fun hc => h (by injection hc))
  | .ok _, .error _ => isFalse (fun hc => Except.noConfusion hc)
  | .error _, .ok _ => isFalse (fun hc => Except.noConfusion hc)

/-- A Python float value: either a finite rational or one of the special
IEEE values `nan`, `inf`, `-inf`.  Finite arithmetic is treated as exact. -/
inductive PyFloat where
  | finite (val : ℚ)
  | nan
  | inf
  | neginf
  deriving DecidableEq, Inhabited

/-- `math.isnan` / `np.isnan`. -/
def PyFloat.isnan : PyFloat → Bool
  | .nan => true
  | _ => false

/-- `np.isinf` (true for both infinities). -/
def PyFloat.isinf : PyFloat → Bool
  | .inf => true
  | .neginf => true
  | _ => false

/-- A Python float is finite iff it is neither NaN nor an infinity. -/
def PyFloat.isFinite : PyFloat → Bool
  | .finite _ => true
  | _ => false

/-- Python truthiness of an optional float field (`None` and `0.0` are
falsy; every other float, including `nan` and `inf`, is truthy).  This is
the test `flight[5] and flight[6] and flight[7]` performs on each field. -/
def pyTruthyFloat : Option PyFloat → Bool
  | none => false
  | some (.finite q) => q != 0
  | some _ => true

/-- Python truthiness of an optional string (`None` and `""` are falsy). -/
def pyTruthyStr : Option String → Bool
  | none => false
  | some s => s != ""

/-- Normalized balloon entity as built by `get_balloon_data`
(`{"latitude": lat, "longitude": lon, "altitude": alt * 1000}`).
The construction site guarantees all three fields are finite, so they are
stored as rationals. -/
structure BalloonEnt where
  latitude : ℚ
  longitude : ℚ
  altitude : ℚ
  deriving DecidableEq, Inhabited

/-- Normalized flight entity as built by `get_flight_data`
(`{"callsign": ..., "latitude": flight[6], "longitude": flight[5],
"altitude": flight[7]}`).  The truthiness filter does NOT guarantee
finiteness, so the numeric fields remain `PyFloat`. -/
structure FlightOut where
  callsign : String
  latitude : PyFloat
  longitude : PyFloat
  altitude : PyFloat
  deriving DecidableEq, Inhabited

/-- One raw balloon record from the upstream JSON: a list of floats
(expected shape `[lat, lon, alt]`, but any length can occur). -/
abbrev BalloonRawEntry := List PyFloat

/-- Body of the loop in `get_balloon_data` (server.py lines 21-29): keep an
entry iff it has exactly 3 fields and none is NaN/Inf; convert altitude
km→m by `alt * 1000`.  The source writes the guard as
`len(entry) == 3` followed by
`not (isnan lat or isnan lon or isnan alt or isinf lat or ...)`,
which holds exactly when all three fields are finite, hence the pattern. -/
def balloonOfEntry : BalloonRawEntry → Option BalloonEnt
  | [PyFloat.finite lat, PyFloat.finite lon, PyFloat.finite alt] =>
      some { latitude := lat, longitude := lon, altitude := alt * 1000 }
  | _ => none

/-- The normalization loop of `get_balloon_data` over the raw JSON array. -/
def balloonsOfRaw (raw : List BalloonRawEntry) : List BalloonEnt :=
  raw.filterMap balloonOfEntry

/-- One raw OpenSky state vector, restricted to the four indices the code
reads: `flight[1]` (callsign, string or null), `flight[5]` (longitude),
`flight[6]` (latitude), `flight[7]` (baro altitude); each numeric field is
a float or null. -/
structure FlightRec where
  callsign : Option String
  longitude : Option PyFloat
  latitude : Option PyFloat
  baro_altitude : Option PyFloat
  deriving DecidableEq, Inhabited

/-- The whitespace characters Python's `str.strip()` removes (ASCII). -/
def isPySpace (c : Char) : Bool :=
  c == ' ' || c == '\t' || c == '\n' || c == '\r' || c == '\x0b' || c == '\x0c'

/-- Python `s.strip()`: drop leading and trailing whitespace. -/
def pyStrip (s : String) : String :=
  String.mk (((s.data.dropWhile isPySpace).reverse.dropWhile isPySpace).reverse)

/-- `flight[1].strip() if flight[1] else "Unknown"` (server.py line 59). -/
def callsignOf : Option String → String
  | none => "Unknown"
  | some s => if s = "" then "Unknown" else pyStrip s

/-- Body of the loop in `get_flight_data` (server.py lines 56-63): keep a
record iff `flight[5] and flight[6] and flight[7]` is truthy in Python. -/
def flightOfRec (r : FlightRec) : Option FlightOut :=
  if pyTruthyFloat r.longitude && pyTruthyFloat r.latitude
      && pyTruthyFloat r.baro_altitude then
    some { callsign := callsignOf r.callsign
           latitude := r.latitude.getD PyFloat.nan
           longitude := r.longitude.getD PyFloat.nan
           altitude := r.baro_altitude.getD PyFloat.nan }
  else
    none

/-- The normalization loop of `get_flight_data` over the `states` array. -/
def flightsOfStates (states : List FlightRec) : List FlightOut :=
  states.filterMap flightOfRec

/-- Round a rational to the nearest integer, ties to even — the semantics
of Python's builtin `round` (on the exact value; binary-representation
effects are outside this model). -/
def roundHalfEven (x : ℚ) : ℤ :=
  let n := x.floor
  let r := x - (n : ℚ)
  if r < 1/2 then n
  else if 1/2 < r then n + 1
  else if n % 2 = 0 then n else n + 1

/-- Python `round(x, 2)`. -/
def round2 (x : ℚ) : ℚ :=
  ((roundHalfEven (x * 100) : ℤ) : ℚ) / 100

/-! ## Bounded-freshness flight cache (`get_flight_data`, server.py 37-71) -/

/-- The module-level mutable cache state: `cached_flight_data` and
`last_flight_fetch_time` (server.py lines 38-39; initial value
`⟨[], 0⟩`). -/
structure FlightCache where
  cached_flight_data : List FlightOut
  last_flight_fetch_time : ℚ
  deriving DecidableEq, Inhabited

/-- An HTTP response from the OpenSky endpoint: its status code and the
parsed `states` array (`response.json().get("states", [])`; a missing key
is the empty list). -/
structure FlightResponse where
  status_code : ℤ
  states : List FlightRec
  deriving DecidableEq, Inhabited

/-- `get_flight_data` (server.py lines 41-71).  Inputs beyond the cache
state: `current_time` is the `time.time()` sample at entry (line 43),
`t_after` the second sample taken after a successful fetch (line 66,
`last_flight_fetch_time = time.time()`), and `resp` the outcome of
`requests.get(url)` — `Except.error` when the request itself raises
(upstream unreachable).  That exception is NOT caught anywhere in the
function, so it propagates (`Except.error` result).  Returns the flight
list together with the updated cache state. -/
def get_flight_data (st : FlightCache) (current_time t_after : ℚ)
    (resp : Except Unit FlightResponse) :
    Except Unit (List FlightOut × FlightCache) :=
  if current_time - st.last_flight_fetch_time < 60 then
    .ok (st.cached_flight_data, st)
  else
    match resp with
    | .error e => .error e
    | .ok r =>
        if r.status_code = 200 then
          let flights := flightsOfStates r.states
          .ok (flights, { cached_flight_data := flights
                          last_flight_fetch_time := t_after })
        else
          .ok (st.cached_flight_data, st)

/-! ## Risk detector (`detect_risks`, server.py 74-116)

For the detector we work with entities whose numeric fields are rational:
the data model's `PositionedEntity` (finite coordinates).  The geodesic
distance function `g` is an abstract parameter (the value
`geodesic(a, b).km` of the library); `geodesicKm` wraps it with geopy's
input validation, which raises `ValueError` for a latitude outside
`[-90, 90]`.  The KD-tree build is abstracted as a fallible `build`
parameter whose success value carries no information (querying is
specified directly by the Euclidean-ball contract of
`query_ball_point`). -/

/-- A flight entity with finite (rational) coordinates, as consumed by
`detect_risks`. -/
structure FlightEnt where
  callsign : String
  latitude : ℚ
  longitude : ℚ
  altitude : ℚ
  deriving DecidableEq, Inhabited

/-- An alert dict as built at server.py lines 104-112. -/
structure Alert where
  aircraft : String
  latitude : ℚ
  longitude : ℚ
  altitude : ℚ
  risk : String
  distance_km : ℚ
  altitude_diff : ℚ
  deriving DecidableEq, Inhabited

/-- Squared planar Euclidean distance on (lat, lon) pairs. -/
def sqDist (p q : ℚ × ℚ) : ℚ :=
  (p.1 - q.1) ^ 2 + (p.2 - q.2) ^ 2

/-- `KDTree(pts).query_ball_point(p, r)`: the indices of the stored points
within Euclidean distance `r` of `p` (boundary included), in increasing
index order (scipy returns a deterministic order; the embedding fixes it
to increasing). -/
def query_ball_point (pts : List (ℚ × ℚ)) (p : ℚ × ℚ) (r : ℚ) : List Nat :=
  (List.range pts.length).filter fun i => sqDist (pts.getD i (0, 0)) p ≤ r ^ 2

/-- `geodesic(a, b).km` with geopy's validation: raises `ValueError`
(\"Latitude must be in the [-90; 90] range\") when either latitude is out
of range, otherwise returns the abstract distance `g a b`. -/
def geodesicKm (g : ℚ × ℚ → ℚ × ℚ → ℚ) (a b : ℚ × ℚ) : Except String ℚ :=
  if a.1 < -90 ∨ 90 < a.1 ∨ b.1 < -90 ∨ 90 < b.1 then
    .error "Latitude must be in the [-90; 90] range."
  else
    .ok (g a b)

/-- The risk string of server.py line 109. -/
def riskMsg : String := "⚠️ Possible Airspace Violation"

/-- Inner loop body of `detect_risks` (server.py lines 99-113), for one
candidate index: read `balloons[idx]`, compute the altitude difference,
and below the 2000 m threshold compute the geodesic distance (which may
raise — uncaught here, hence `Except`) and append the alert. -/
def processCandidate (g : ℚ × ℚ → ℚ × ℚ → ℚ) (balloons : List BalloonEnt)
    (flight : FlightEnt) (acc : List Alert) (idx : Nat) :
    Except String (List Alert) :=
  let balloon := balloons.getD idx ⟨0, 0, 0⟩
  let altitude_diff := |flight.altitude - balloon.altitude|
  if altitude_diff < 2000 then
    match geodesicKm g (balloon.latitude, balloon.longitude)
        (flight.latitude, flight.longitude) with
    | .error e => .error e
    | .ok dist =>
        .ok (acc ++ [{ aircraft := flight.callsign
                       latitude := flight.latitude
                       longitude := flight.longitude
                       altitude := flight.altitude
                       risk := riskMsg
                       distance_km := round2 dist
                       altitude_diff := altitude_diff }])
  else
    .ok acc

/-- The `for idx in nearby_balloon_indices` loop, with Python exception
propagation. -/
def loopCands (g : ℚ × ℚ → ℚ × ℚ → ℚ) (balloons : List BalloonEnt)
    (flight : FlightEnt) : List Nat → List Alert → Except String (List Alert)
  | [], acc => .ok acc
  | idx :: rest, acc =>
      match processCandidate g balloons flight acc idx with
      | .error e => .error e
      | .ok acc' => loopCands g balloons flight rest acc'

/-- Body of the `for flight in flights` loop (server.py lines 92-113): the
`len(balloon_positions) > 0` re-check at line 96, the ball query at radius
1.0, then the candidate loop. -/
def processFlight (g : ℚ × ℚ → ℚ × ℚ → ℚ) (balloons : List BalloonEnt)
    (positions : List (ℚ × ℚ)) (acc : List Alert) (flight : FlightEnt) :
    Except String (List Alert) :=
  let flight_pos := (flight.latitude, flight.longitude)
  if positions.length > 0 then
    loopCands g balloons flight (query_ball_point positions flight_pos 1) acc
  else
    .ok acc

/-- The `for flight in flights` loop with exception propagation. -/
def loopFlights (g : ℚ × ℚ → ℚ × ℚ → ℚ) (balloons : List BalloonEnt)
    (positions : List (ℚ × ℚ)) :
    List FlightEnt → List Alert → Except String (List Alert)
  | [], acc => .ok acc
  | flight :: rest, acc =>
      match processFlight g balloons positions acc flight with
      | .error e => .error e
      | .ok acc' => loopFlights g balloons positions rest acc'

/-- `detect_risks(flights, balloons)` (server.py lines 74-116).
`build` models `KDTree(balloon_positions)` at line 84: only its
success/failure matters; the `try`/`except` at lines 81-90 converts a
build failure into `return []`.  The guard `if not balloons or not
flights` is line 76; the `len(balloon_positions) > 0` check is line 83
(its `else` branch, line 87, also returns `[]`). -/
def detect_risks (flights : List FlightEnt) (balloons : List BalloonEnt)
    (build : List (ℚ × ℚ) → Except String Unit)
    (g : ℚ × ℚ → ℚ × ℚ → ℚ) : Except String (List Alert) :=
  if balloons = [] ∨ flights = [] then .ok []
  else
    let balloon_positions := balloons.map fun b => (b.latitude, b.longitude)
    if balloon_positions.length > 0 then
      match build balloon_positions with
      | .error _ => .ok []
      | .ok _ => loopFlights g balloons balloon_positions flights []
    else
      .ok []

/-- Specification-side description of the alert a single candidate pair
contributes: `some` alert exactly when the altitude difference is strictly
below 2000, carrying the rounded abstract distance.  Matches the record
built in `processCandidate` when the geodesic call succeeds. -/
def candAlert (g : ℚ × ℚ → ℚ × ℚ → ℚ) (balloons : List BalloonEnt)
    (flight : FlightEnt) (idx : Nat) : Option Alert :=
  let balloon := balloons.getD idx ⟨0, 0, 0⟩
  let altitude_diff := |flight.altitude - balloon.altitude|
  if altitude_diff < 2000 then
    some { aircraft := flight.callsign
           latitude := flight.latitude
           longitude := flight.longitude
           altitude := flight.altitude
           risk := riskMsg
           distance_km := round2 (g (balloon.latitude, balloon.longitude)
             (flight.latitude, flight.longitude))
           altitude_diff := altitude_diff }
  else
    none

/-- All alerts one probe flight produces: its in-radius candidates, in the
index's returned order, each mapped through `candAlert`. -/
def alertsOf (g : ℚ × ℚ → ℚ × ℚ → ℚ) (balloons : List BalloonEnt)
    (positions : List (ℚ × ℚ)) (flight : FlightEnt) : List Alert :=
  (query_ball_point positions (flight.latitude, flight.longitude) 1).filterMap
    (candAlert g balloons flight)

/-! ## State-threading transcription of `detect_risks`

The caller's two Python lists are mutable heap objects.  To state the
frame property (the call modifies neither list) the same source code is
transcribed once more with the heap passed explicitly: every read of
`flights` / `balloons[idx]` goes through the heap value, and the heap a
step passes on is whatever that step's source statements leave behind —
for `detect_risks`, which contains no assignment into either list, that
is the heap it received. -/

/-- The part of the Python heap `detect_risks` can reach: the caller's
`flights` and `balloons` lists. -/
structure PyHeap where
  flights : List FlightEnt
  balloons : List BalloonEnt
  deriving DecidableEq, Inhabited

/-- Candidate loop of `detect_risks`, heap passed explicitly. -/
def loopCandsSt (g : ℚ × ℚ → ℚ × ℚ → ℚ) (flight : FlightEnt) :
    List Nat → PyHeap → List Alert → Except String (PyHeap × List Alert)
  | [], h, acc => .ok (h, acc)
  | idx :: rest, h, acc =>
      let balloon := h.balloons.getD idx ⟨0, 0, 0⟩
      let altitude_diff := |flight.altitude - balloon.altitude|
      if altitude_diff < 2000 then
        match geodesicKm g (balloon.latitude, balloon.longitude)
            (flight.latitude, flight.longitude) with
        | .error e => .error e
        | .ok dist =>
            loopCandsSt g flight rest h
              (acc ++ [{ aircraft := flight.callsign
                         latitude := flight.latitude
                         longitude := flight.longitude
                         altitude := flight.altitude
                         risk := riskMsg
                         distance_km := round2 dist
                         altitude_diff := altitude_diff }])
      else
        loopCandsSt g flight rest h acc

/-- Flight loop of `detect_risks`, iterating the caller's list by index
through the heap. -/
def loopFlightsSt (g : ℚ × ℚ → ℚ × ℚ → ℚ) (positions : List (ℚ × ℚ)) :
    List Nat → PyHeap → List Alert → Except String (PyHeap × List Alert)
  | [], h, acc => .ok (h, acc)
  | fi :: rest, h, acc =>
      let flight := h.flights.getD fi ⟨"", 0, 0, 0⟩
      let flight_pos := (flight.latitude, flight.longitude)
      if positions.length > 0 then
        match loopCandsSt g flight (query_ball_point positions flight_pos 1)
            h acc with
        | .error e => .error e
        | .ok (h', acc') => loopFlightsSt g positions rest h' acc'
      else
        loopFlightsSt g positions rest h acc

/-- `detect_risks` with the caller's lists as explicit heap state; returns
the final heap together with the alert list. -/
def detect_risks_st (h : PyHeap) (build : List (ℚ × ℚ) → Except String Unit)
    (g : ℚ × ℚ → ℚ × ℚ → ℚ) : Except String (PyHeap × List Alert) :=
  if h.balloons = [] ∨ h.flights = [] then .ok (h, [])
  else
    let balloon_positions := h.balloons.map fun b => (b.latitude, b.longitude)
    if balloon_positions.length > 0 then
      match build balloon_positions with
      | .error _ => .ok (h, [])
      | .ok _ => loopFlightsSt g balloon_positions
          (List.range h.flights.length) h []
    else
      .ok (h, [])

/-- The balloon positions list of server.py line 82. -/
def balloonPositions (balloons : List BalloonEnt) : List (ℚ × ℚ) :=
  balloons.map fun b => (b.latitude, b.longitude)

/-- The latitude of the data-model invariant: within `[-90, 90]`. -/
abbrev latInRange (lat : ℚ) : Prop := -90 ≤ lat ∧ lat ≤ 90

/-! ## Helper lemmas: characterizing a successful run of `detect_risks` -/

/-- `balloons[idx]` (with the embedding's default) keeps latitudes in
range: it is either a list member or the origin default. -/
theorem getD_lat_range (balloons : List BalloonEnt) (idx : Nat)
    (hb : ∀ b ∈ balloons, latInRange b.latitude) :
    latInRange (balloons.getD idx ⟨0, 0, 0⟩).latitude := by
  by_cases h : idx < balloons.length
  · have he : balloons.getD idx ⟨0, 0, 0⟩ = balloons[idx] := by
      rw [List.getD_eq_getElem?_getD, List.getElem?_eq_getElem h]; rfl
    rw [he]
    exact hb _ (List.getElem_mem h)
  · have he : balloons.getD idx ⟨0, 0, 0⟩ = ⟨0, 0, 0⟩ := by
      rw [List.getD_eq_getElem?_getD, List.getElem?_eq_none (by omega)]; rfl
    rw [he]
    constructor <;> norm_num [latInRange]

/-- With all latitudes in range, a candidate step cannot raise and adds
exactly the `candAlert` contribution. -/
theorem processCandidate_eq (g : ℚ × ℚ → ℚ × ℚ → ℚ)
    (balloons : List BalloonEnt) (flight : FlightEnt) (acc : List Alert)
    (idx : Nat) (hb : ∀ b ∈ balloons, latInRange b.latitude)
    (hf : latInRange flight.latitude) :
    processCandidate g balloons flight acc idx =
      .ok (acc ++ (candAlert g balloons flight idx).toList) := by
  have hbal := getD_lat_range balloons idx hb
  unfold processCandidate candAlert
  by_cases had :
      |flight.altitude - (balloons.getD idx ⟨0, 0, 0⟩).altitude| < 2000
  · rw [if_pos had, if_pos had]
    unfold geodesicKm
    rw [if_neg ?hrange]
    case hrange =>
      rintro (h | h | h | h) <;>
        simp only at h <;>
        [exact absurd h (not_lt.mpr hbal.1);
         exact absurd h (not_lt.mpr hbal.2);
         exact absurd h (not_lt.mpr hf.1);
         exact absurd h (not_lt.mpr hf.2)]
    simp [Option.toList]
  · rw [if_neg had, if_neg had]
    simp

/-- The candidate loop collects the `filterMap` of its candidates. -/
theorem loopCands_eq (g : ℚ × ℚ → ℚ × ℚ → ℚ) (balloons : List BalloonEnt)
    (flight : FlightEnt) (hb : ∀ b ∈ balloons, latInRange b.latitude)
    (hf : latInRange flight.latitude) :
    ∀ (cands : List Nat) (acc : List Alert),
      loopCands g balloons flight cands acc =
        .ok (acc ++ cands.filterMap (candAlert g balloons flight)) := by
  intro cands
  induction cands with
  | nil => intro acc; simp [loopCands]
  | cons idx rest ih =>
      intro acc
      have hpc := processCandidate_eq g balloons flight acc idx hb hf
      simp only [loopCands, hpc, ih]
      cases hca : candAlert g balloons flight idx <;>
        simp [hca, List.filterMap_cons, Option.toList]

/-- A flight's whole iteration succeeds and contributes `alertsOf`. -/
theorem processFlight_eq (g : ℚ × ℚ → ℚ × ℚ → ℚ)
    (balloons : List BalloonEnt) (positions : List (ℚ × ℚ))
    (acc : List Alert) (flight : FlightEnt)
    (hb : ∀ b ∈ balloons, latInRange b.latitude)
    (hf : latInRange flight.latitude) :
    processFlight g balloons positions acc flight =
      .ok (acc ++ alertsOf g balloons positions flight) := by
  unfold processFlight alertsOf
  by_cases hp : positions.length > 0
  · rw [if_pos hp, loopCands_eq g balloons flight hb hf]
  · rw [if_neg hp]
    have hz : positions.length = 0 := by omega
    simp [query_ball_point, hz]

/-- The flight loop collects the per-flight alert lists in probe order. -/
theorem loopFlights_eq (g : ℚ × ℚ → ℚ × ℚ → ℚ)
    (balloons : List BalloonEnt) (positions : List (ℚ × ℚ))
    (hb : ∀ b ∈ balloons, latInRange b.latitude) :
    ∀ (fls : List FlightEnt) (acc : List Alert),
      (∀ f ∈ fls, latInRange f.latitude) →
      loopFlights g balloons positions fls acc =
        .ok (acc ++ fls.flatMap (alertsOf g balloons positions)) := by
  intro fls
  induction fls with
  | nil => intro acc _; simp [loopFlights]
  | cons flight rest ih =>
      intro acc hf
      have hpf := processFlight_eq g balloons positions acc flight hb
        (hf flight (by simp))
      have hrest : ∀ f ∈ rest, latInRange f.latitude :=
        fun f hfm => hf f (by simp [hfm])
      simp only [loopFlights, hpf, ih _ hrest]
      simp [List.flatMap_cons, List.append_assoc]

/-- Main characterization: with both inputs non-empty, the KD-tree build
succeeding, and every latitude within the data model's `[-90, 90]` range,
`detect_risks` succeeds and returns exactly the flights' `alertsOf`
lists, concatenated in probe iteration order. -/
theorem detect_risks_ok (flights : List FlightEnt)
    (balloons : List BalloonEnt)
    (build : List (ℚ × ℚ) → Except String Unit) (g : ℚ × ℚ → ℚ × ℚ → ℚ)
    (hfne : flights ≠ []) (hbne : balloons ≠ [])
    (hbuild : build (balloonPositions balloons) = .ok ())
    (hb : ∀ b ∈ balloons, latInRange b.latitude)
    (hf : ∀ f ∈ flights, latInRange f.latitude) :
    detect_risks flights balloons build g =
      .ok (flights.flatMap (alertsOf g balloons (balloonPositions balloons))) := by
  have hlen : (balloonPositions balloons).length > 0 := by
    simp [balloonPositions]
    exact List.length_pos.mpr hbne
  unfold detect_risks
  rw [if_neg (by simp [hfne, hbne])]
  show (if (balloonPositions balloons).length > 0 then _ else _) = _
  rw [if_pos hlen]
  unfold balloonPositions at hbuild
  rw [hbuild]
  exact loopFlights_eq g balloons _ hb flights [] hf

/-! ## Helper lemmas: the state-threading run never changes the heap -/

/-- The candidate loop returns the heap it was given. -/
theorem loopCandsSt_heap (g : ℚ × ℚ → ℚ × ℚ → ℚ) (flight : FlightEnt) :
    ∀ (cands : List Nat) (h : PyHeap) (acc : List Alert) (h' : PyHeap)
      (acc' : List Alert),
      loopCandsSt g flight cands h acc = .ok (h', acc') → h' = h := by
  intro cands
  induction cands with
  | nil =>
      intro h acc h' acc' heq
      simp only [loopCandsSt] at heq
      injection heq with heq'
      exact (congrArg Prod.fst heq').symm
  | cons idx rest ih =>
      intro h acc h' acc' heq
      simp only [loopCandsSt] at heq
      by_cases had :
          |flight.altitude - (h.balloons.getD idx ⟨0, 0, 0⟩).altitude| < 2000
      · rw [if_pos had] at heq
        cases hg : geodesicKm g ((h.balloons.getD idx ⟨0, 0, 0⟩).latitude,
            (h.balloons.getD idx ⟨0, 0, 0⟩).longitude)
            (flight.latitude, flight.longitude) with
        | error e => rw [hg] at heq; exact absurd heq (by simp)
        | ok dist => rw [hg] at heq; exact ih _ _ _ _ heq
      · rw [if_neg had] at heq
        exact ih _ _ _ _ heq

/-- The flight loop returns the heap it was given. -/
theorem loopFlightsSt_heap (g : ℚ × ℚ → ℚ × ℚ → ℚ)
    (positions : List (ℚ × ℚ)) :
    ∀ (idxs : List Nat) (h : PyHeap) (acc : List Alert) (h' : PyHeap)
      (acc' : List Alert),
      loopFlightsSt g positions idxs h acc = .ok (h', acc') → h' = h := by
  intro idxs
  induction idxs with
  | nil =>
      intro h acc h' acc' heq
      simp only [loopFlightsSt] at heq
      injection heq with heq'
      exact (congrArg Prod.fst heq').symm
  | cons fi rest ih =>
      intro h acc h' acc' heq
      simp only [loopFlightsSt] at heq
      by_cases hp : positions.length > 0
      · rw [if_pos hp] at heq
        cases hc : loopCandsSt g (h.flights.getD fi ⟨"", 0, 0, 0⟩)
            (query_ball_point positions
              ((h.flights.getD fi ⟨"", 0, 0, 0⟩).latitude,
               (h.flights.getD fi ⟨"", 0, 0, 0⟩).longitude) 1) h acc with
        | error e => rw [hc] at heq; exact absurd heq (by simp)
        | ok p =>
            rw [hc] at heq
            have h1 : p.1 = h := loopCandsSt_heap g _ _ _ _ _ _ hc
            have h2 : h' = p.1 := ih _ _ _ _ heq
            rw [h2, h1]
      · rw [if_neg hp] at heq
        exact ih _ _ _ _ heq

/-- A successful `detect_risks_st` run returns the caller's heap. -/
theorem detect_risks_st_preserves (h : PyHeap)
    (build : List (ℚ × ℚ) → Except String Unit) (g : ℚ × ℚ → ℚ × ℚ → ℚ)
    (h' : PyHeap) (alerts : List Alert)
    (heq : detect_risks_st h build g = .ok (h', alerts)) : h' = h := by
  unfold detect_risks_st at heq
  by_cases hemp : h.balloons = [] ∨ h.flights = []
  · rw [if_pos hemp] at heq
    injection heq with heq'
    exact (congrArg Prod.fst heq').symm
  · rw [if_neg hemp] at heq
    by_cases hp : (h.balloons.map fun b => (b.latitude, b.longitude)).length > 0
    · rw [if_pos hp] at heq
      cases hbd : build (h.balloons.map fun b => (b.latitude, b.longitude)) with
      | error e =>
          rw [hbd] at heq
          injection heq with heq'
          exact (congrArg Prod.fst heq').symm
      | ok u =>
          rw [hbd] at heq
          exact loopFlightsSt_heap g _ _ _ _ _ _ heq
    · rw [if_neg hp] at heq
      injection heq with heq'
      exact (congrArg Prod.fst heq').symm


/-! ## Claim theorems -/

/-- C1: for non-empty reference (balloon) and probe (flight) sets, with the
index build succeeding and all latitudes within the data model's
`[-90, 90]` range, `detect_risks` emits exactly one alert per
(probe flight, in-radius candidate) pair whose absolute altitude
difference is strictly below the 2000 m threshold (so a pair at exactly
2000 contributes nothing and a pair at 1999 contributes one alert, each
qualifying candidate separately, with no deduplication), and each alert
carries `altitude_diff = |flight.altitude - balloon.altitude|` and
`distance_km = round2` of the geodesic distance. -/
theorem C1_detect_one_alert_per_pair (flights : List FlightEnt)
    (balloons : List BalloonEnt)
    (build : List (ℚ × ℚ) → Except String Unit) (g : ℚ × ℚ → ℚ × ℚ → ℚ)
    (hfne : flights ≠ []) (hbne : balloons ≠ [])
    (hbuild : build (balloonPositions balloons) = .ok ())
    (hb : ∀ b ∈ balloons, latInRange b.latitude)
    (hf : ∀ f ∈ flights, latInRange f.latitude) :
    detect_risks flights balloons build g =
      .ok (flights.flatMap fun flight =>
        (query_ball_point (balloonPositions balloons)
            (flight.latitude, flight.longitude) 1).filterMap fun idx =>
          let balloon := balloons.getD idx ⟨0, 0, 0⟩
          let altitude_diff := |flight.altitude - balloon.altitude|
          if altitude_diff < 2000 then
            some { aircraft := flight.callsign
                   latitude := flight.latitude
                   longitude := flight.longitude
                   altitude := flight.altitude
                   risk := riskMsg
                   distance_km := round2 (g (balloon.latitude, balloon.longitude)
                     (flight.latitude, flight.longitude))
                   altitude_diff := altitude_diff }
          else
            none) :=
  detect_risks_ok flights balloons build g hfne hbne hbuild hb hf

/-- C2 (amended): the balloon normalizer accepts a record exactly when it
has three all-finite fields, and its outputs' fields are (by type)
finite rationals; the flight normalizer keeps a record iff the Python
truthiness of `flight[5]`, `flight[6]`, `flight[7]` holds — so `None` and
`0.0` fields are dropped, while `nan`/`inf` values pass through; both
normalizers' outputs never exceed the input length, and neither raises
(both are total functions on raw records). -/
theorem C2_normalizer_amended :
    (∀ raw : List BalloonRawEntry, (balloonsOfRaw raw).length ≤ raw.length) ∧
    (∀ (e : BalloonRawEntry) (b : BalloonEnt), balloonOfEntry e = some b →
      ∃ la lo al, e = [PyFloat.finite la, PyFloat.finite lo, PyFloat.finite al]) ∧
    (∀ la lo al : ℚ,
      (balloonOfEntry [PyFloat.finite la, PyFloat.finite lo,
        PyFloat.finite al]).isSome = true) ∧
    (∀ states : List FlightRec,
      (flightsOfStates states).length ≤ states.length) ∧
    (∀ r : FlightRec, (flightOfRec r).isSome =
      (pyTruthyFloat r.longitude && pyTruthyFloat r.latitude
        && pyTruthyFloat r.baro_altitude)) := by
  refine ⟨?_, ?_, ?_, ?_, ?_⟩
  · intro raw
    exact List.length_filterMap_le _ _
  · intro e b heq
    unfold balloonOfEntry at heq
    split at heq
    · next la lo al => exact ⟨la, lo, al, rfl⟩
    · simp at heq
  · intro la lo al
    rfl
  · intro states
    exact List.length_filterMap_le _ _
  · intro r
    cases hc : pyTruthyFloat r.longitude && pyTruthyFloat r.latitude
        && pyTruthyFloat r.baro_altitude <;>
      simp [flightOfRec, hc]

/-- C3 (amended): after TTL expiry, a fetch that returns a non-success
status leaves the cached data and timestamp unchanged and returns the
previous cached result (the initial empty list if no success ever
happened); but a fetch whose HTTP request itself raises (upstream
unreachable) is NOT masked: `get_flight_data` has no handler for it, so
the exception propagates to the caller. -/
theorem C3_cache_failure_amended (st : FlightCache) (t1 t2 : ℚ)
    (r : FlightResponse)
    (httl : ¬ (t1 - st.last_flight_fetch_time < 60))
    (hstatus : r.status_code ≠ 200) :
    get_flight_data st t1 t2 (.ok r) = .ok (st.cached_flight_data, st) ∧
    (∀ e : Unit, get_flight_data st t1 t2 (.error e) = .error e) := by
  constructor
  · unfold get_flight_data
    rw [if_neg httl]
    simp [hstatus]
  · intro e
    unfold get_flight_data
    rw [if_neg httl]

/-- C4: if the first lookup misses the TTL window and its fetch succeeds
(status 200), then any second lookup whose entry time is within 60 s of
the first (with clock monotonicity `t1e ≤ t1s` between the two
`time.time()` samples of the first call) returns the identical result and
state, for every possible outcome of its own fetch — i.e. the fetch is
not consulted at all on the second call. -/
theorem C4_cache_ttl_idempotent (st : FlightCache) (t1e t1s t2e : ℚ)
    (r : FlightResponse)
    (hmono : t1e ≤ t1s)
    (hmiss : ¬ (t1e - st.last_flight_fetch_time < 60))
    (hok : r.status_code = 200)
    (hwithin : t2e - t1e < 60) :
    get_flight_data st t1e t1s (.ok r) =
      .ok (flightsOfStates r.states, ⟨flightsOfStates r.states, t1s⟩) ∧
    (∀ (resp2 : Except Unit FlightResponse) (t2s : ℚ),
      get_flight_data ⟨flightsOfStates r.states, t1s⟩ t2e t2s resp2 =
        .ok (flightsOfStates r.states, ⟨flightsOfStates r.states, t1s⟩)) := by
  constructor
  · unfold get_flight_data
    rw [if_neg hmiss]
    simp [hok]
  · intro resp2 t2s
    unfold get_flight_data
    rw [if_pos (by simp only; linarith)]

/-- C5 (amended): a failure of the distance computation for a single
(probe, candidate) pair is NOT skipped — it aborts the whole
`detect_risks` call (the `try`/`except` covers only the index build) —
but when every latitude is within geopy's accepted `[-90, 90]` range no
distance computation can fail and `detect_risks` returns normally for
every build outcome. -/
theorem C5_detect_ok_when_lat_in_range (flights : List FlightEnt)
    (balloons : List BalloonEnt)
    (build : List (ℚ × ℚ) → Except String Unit) (g : ℚ × ℚ → ℚ × ℚ → ℚ)
    (hb : ∀ b ∈ balloons, latInRange b.latitude)
    (hf : ∀ f ∈ flights, latInRange f.latitude) :
    (detect_risks flights balloons build g).isOk = true := by
  by_cases hemp : balloons = [] ∨ flights = []
  · unfold detect_risks
    rw [if_pos hemp]
    rfl
  · push_neg at hemp
    obtain ⟨hbne, hfne⟩ := hemp
    cases hbd : build (balloonPositions balloons) with
    | error e =>
        unfold detect_risks
        rw [if_neg (by simp [hbne, hfne])]
        show (Except.isOk
          (if (balloonPositions balloons).length > 0 then _ else _)) = true
        rw [if_pos (by simpa [balloonPositions, List.length_pos] using hbne)]
        unfold balloonPositions at hbd
        rw [hbd]
        rfl
    | ok u =>
        cases u
        rw [detect_risks_ok flights balloons build g hfne hbne hbd hb hf]
        rfl

/-- C6: `detect_risks` returns the empty alert list, successfully, when
either input list is empty, and likewise when the spatial-index
construction fails. -/
theorem C6_detect_empty_or_build_failure (flights : List FlightEnt)
    (balloons : List BalloonEnt)
    (build : List (ℚ × ℚ) → Except String Unit) (g : ℚ × ℚ → ℚ × ℚ → ℚ) :
    (balloons = [] ∨ flights = [] →
      detect_risks flights balloons build g = .ok []) ∧
    (∀ e : String, build (balloonPositions balloons) = .error e →
      detect_risks flights balloons build g = .ok []) := by
  constructor
  · intro hemp
    unfold detect_risks
    rw [if_pos hemp]
  · intro e hbd
    by_cases hemp : balloons = [] ∨ flights = []
    · unfold detect_risks
      rw [if_pos hemp]
    · unfold detect_risks
      rw [if_neg hemp]
      show (if (balloonPositions balloons).length > 0 then _ else _) = _
      by_cases hp : (balloonPositions balloons).length > 0
      · rw [if_pos hp]
        unfold balloonPositions at hbd
        rw [hbd]
      · rw [if_neg hp]

/-- C7 (amended): the normalized label equals
`flight[1].strip() if flight[1] else "Unknown"`: it is the sentinel
`"Unknown"` when the raw label is absent (`None`) or the empty string,
and otherwise the raw label with surrounding whitespace stripped — in
particular a whitespace-only label becomes `""`, not the sentinel. -/
theorem C7_label_amended (r : FlightRec) (f : FlightOut)
    (heq : flightOfRec r = some f) :
    f.callsign = callsignOf r.callsign ∧
    (r.callsign = none ∨ r.callsign = some "" → f.callsign = "Unknown") ∧
    (∀ s : String, r.callsign = some s → s ≠ "" →
      f.callsign = pyStrip s) := by
  have hcs : f.callsign = callsignOf r.callsign := by
    unfold flightOfRec at heq
    split at heq
    · injection heq with heq'
      rw [← heq']
    · simp at heq
  refine ⟨hcs, ?_, ?_⟩
  · rintro (h | h) <;> simp [hcs, callsignOf, h]
  · intro s hs hne
    simp [hcs, callsignOf, hs, hne]

/-- C8: every record the balloon normalizer accepts decomposes as three
finite floats `[lat, lon, alt]`, and the resulting entity carries
`latitude = lat` and `longitude = lon` unscaled and
`altitude = alt * 1000` (km converted to m, exact in this model). -/
theorem C8_balloon_altitude_scale (la lo al : ℚ) (b : BalloonEnt)
    (heq : balloonOfEntry
      [PyFloat.finite la, PyFloat.finite lo, PyFloat.finite al] = some b) :
    b.latitude = la ∧ b.longitude = lo ∧ b.altitude = al * 1000 := by
  unfold balloonOfEntry at heq
  injection heq with heq'
  exact ⟨by rw [← heq'], by rw [← heq'], by rw [← heq']⟩

/-- C9: `detect_risks` is deterministic — two calls on equal inputs return
equal alert sequences — and under the hypotheses of a normal run the
output is ordered by probe-set iteration (`flatMap` over `flights`) with
each flight's alerts following the index's returned candidate order
(`alertsOf`). -/
theorem C9_detect_deterministic_ordering (flights flights2 : List FlightEnt)
    (balloons balloons2 : List BalloonEnt)
    (build build2 : List (ℚ × ℚ) → Except String Unit)
    (g g2 : ℚ × ℚ → ℚ × ℚ → ℚ)
    (heqf : flights2 = flights) (heqb : balloons2 = balloons)
    (heqbd : build2 = build) (heqg : g2 = g)
    (hfne : flights ≠ []) (hbne : balloons ≠ [])
    (hbuild : build (balloonPositions balloons) = .ok ())
    (hb : ∀ b ∈ balloons, latInRange b.latitude)
    (hf : ∀ f ∈ flights, latInRange f.latitude) :
    detect_risks flights2 balloons2 build2 g2 =
      detect_risks flights balloons build g ∧
    detect_risks flights balloons build g =
      .ok (flights.flatMap
        (alertsOf g balloons (balloonPositions balloons))) := by
  subst heqf heqb heqbd heqg
  exact ⟨rfl, detect_risks_ok _ _ _ _ hfne hbne hbuild hb hf⟩

/-- C10: `detect_risks` does not modify the caller's lists: in the
state-threading transcription, a returning call hands back a heap whose
`flights` and `balloons` lists (with every entity record in them) are
equal to the ones it received. -/
theorem C10_detect_risks_frame (h : PyHeap)
    (build : List (ℚ × ℚ) → Except String Unit) (g : ℚ × ℚ → ℚ × ℚ → ℚ)
    (h' : PyHeap) (alerts : List Alert)
    (heq : detect_risks_st h build g = .ok (h', alerts)) :
    h'.flights = h.flights ∧ h'.balloons = h.balloons := by
  rw [detect_risks_st_preserves h build g h' alerts heq]
  exact ⟨rfl, rfl⟩

/-! ## Concrete runs: counterexamples and witnesses

Batteries marks the `Rat` arithmetic operations `@[irreducible]`, which
blocks `decide`-style evaluation of concrete program runs; inside this
section the default reducibility is restored so the kernel can evaluate
the embedded program on concrete inputs. -/

section ConcreteRuns

attribute [local semireducible] Rat.add Rat.sub Rat.mul Rat.inv Rat.ofScientific

/-- C1 witness: the spec's end-to-end scenario — balloon at
(40, -74, 9000 m), flight "TEST1" at (40.001, -74.001, 9500 m), geodesic
distance 0.14 km — produces exactly one alert with `altitude_diff = 500`
and `distance_km = 0.14`. -/
theorem C1_witness :
    detect_risks [⟨"TEST1", 40.001, -74.001, 9500⟩] [⟨40, -74, 9000⟩]
      (fun _ => .ok ()) (fun _ _ => 14/100) =
    .ok [⟨"TEST1", 40.001, -74.001, 9500, riskMsg, 14/100, 500⟩] := by
  rw [C1_detect_one_alert_per_pair [⟨"TEST1", 40.001, -74.001, 9500⟩]
    [⟨40, -74, 9000⟩] (fun _ => .ok ()) (fun _ _ => 14/100)
    (by decide) (by decide) rfl (by decide) (by decide)]
  decide

/-- C2 counterexample: the flight normalizer does not enforce finiteness —
a record with `NaN` latitude is truthy, so it is kept and the output
entity's latitude is not finite; meanwhile a record whose (finite,
numeric, present) longitude is `0.0` is falsy and is dropped.  Both
contradict the claim that exactly the non-finite/absent records are
dropped and all outputs are finite. -/
theorem C2_normalizer_counterexample :
    flightsOfStates [⟨some "A", some (PyFloat.finite 1), some PyFloat.nan,
        some (PyFloat.finite 100)⟩] =
      [⟨"A", PyFloat.nan, PyFloat.finite 1, PyFloat.finite 100⟩] ∧
    PyFloat.isFinite PyFloat.nan = false ∧
    flightsOfStates [⟨some "B", some (PyFloat.finite 0),
        some (PyFloat.finite 5), some (PyFloat.finite 100)⟩] = [] := by
  refine ⟨?_, rfl, ?_⟩ <;> decide

/-- C2 witness: the length bound of the amended claim at a concrete raw
balloon list. -/
theorem C2_witness :
    (balloonsOfRaw [[PyFloat.finite 40, PyFloat.finite (-74),
      PyFloat.finite 9]]).length ≤ 1 :=
  C2_normalizer_amended.1
    [[PyFloat.finite 40, PyFloat.finite (-74), PyFloat.finite 9]]

/-- C3 counterexample: when the HTTP request itself raises (upstream
unreachable) after TTL expiry, `get_flight_data` propagates the exception
to its caller instead of returning the cached result — the claim's
"failure is never raised to the caller" is false for this failure mode. -/
theorem C3_fetch_error_counterexample :
    get_flight_data ⟨[], 0⟩ 100 100 (.error ()) = .error () := by
  decide

/-- C3 witness: a non-success status (404) after TTL expiry leaves the
cache untouched and returns the previously cached flight. -/
theorem C3_witness :
    get_flight_data ⟨[⟨"AB", PyFloat.finite 1, PyFloat.finite 2,
        PyFloat.finite 3⟩], 5⟩ 100 100 (.ok ⟨404, []⟩) =
      .ok ([⟨"AB", PyFloat.finite 1, PyFloat.finite 2, PyFloat.finite 3⟩],
        ⟨[⟨"AB", PyFloat.finite 1, PyFloat.finite 2, PyFloat.finite 3⟩], 5⟩) :=
  (C3_cache_failure_amended
    ⟨[⟨"AB", PyFloat.finite 1, PyFloat.finite 2, PyFloat.finite 3⟩], 5⟩
    100 100 ⟨404, []⟩ (by decide) (by decide)).1

/-- C4 witness: a successful fetch at t=100 (entry) / t=100 (store) fills
the cache; a second call at t=120 returns the identical result and state
even when its own fetch outcome is an error — the fetch is not consulted. -/
theorem C4_witness :
    flightsOfStates [⟨some "A", some (PyFloat.finite 1),
        some (PyFloat.finite 2), some (PyFloat.finite 3)⟩] =
      [⟨"A", PyFloat.finite 2, PyFloat.finite 1, PyFloat.finite 3⟩] ∧
    get_flight_data
        ⟨flightsOfStates [⟨some "A", some (PyFloat.finite 1),
          some (PyFloat.finite 2), some (PyFloat.finite 3)⟩], 100⟩
        120 0 (.error ()) =
      .ok (flightsOfStates [⟨some "A", some (PyFloat.finite 1),
          some (PyFloat.finite 2), some (PyFloat.finite 3)⟩],
        ⟨flightsOfStates [⟨some "A", some (PyFloat.finite 1),
          some (PyFloat.finite 2), some (PyFloat.finite 3)⟩], 100⟩) :=
  ⟨by decide,
   (C4_cache_ttl_idempotent ⟨[], 0⟩ 100 100 120
      ⟨200, [⟨some "A", some (PyFloat.finite 1), some (PyFloat.finite 2),
        some (PyFloat.finite 3)⟩]⟩
      (by decide) (by decide) rfl (by decide)).2 (.error ()) 0⟩

/-- C5 counterexample: a balloon with latitude 90.5 (accepted by the
balloon normalizer, which checks only finiteness) is within the planar
pre-filter radius of a flight at latitude 89.5 with altitude difference
500 < 2000, so the geodesic call runs and raises — and the exception
escapes `detect_risks` instead of the pair being skipped. -/
theorem C5_distance_error_counterexample :
    detect_risks [⟨"F", 89.5, 0, 1000⟩] [⟨90.5, 0, 1500⟩]
      (fun _ => .ok ()) (fun _ _ => 0) =
    .error "Latitude must be in the [-90; 90] range." := by
  decide

/-- C5 witness: with all latitudes in range, `detect_risks` returns
normally even when the index build fails. -/
theorem C5_witness :
    (detect_risks [⟨"T", 10, 20, 1000⟩] [⟨10, 20, 1500⟩]
      (fun _ => .error "KD build failed") (fun _ _ => 5)).isOk = true :=
  C5_detect_ok_when_lat_in_range [⟨"T", 10, 20, 1000⟩] [⟨10, 20, 1500⟩]
    (fun _ => .error "KD build failed") (fun _ _ => 5)
    (by decide) (by decide)

/-- C6 witness: an empty probe set yields no alerts. -/
theorem C6_witness :
    detect_risks ([] : List FlightEnt) [⟨1, 2, 3⟩]
      (fun _ => .ok ()) (fun _ _ => 0) = .ok [] :=
  (C6_detect_empty_or_build_failure [] [⟨1, 2, 3⟩]
    (fun _ => .ok ()) (fun _ _ => 0)).1 (Or.inr rfl)

/-- C7 counterexample: a whitespace-only callsign `" "` is truthy, so it
is stripped to `""` — the emitted label is the empty string, not the
`"Unknown"` sentinel the claim prescribes for blank labels. -/
theorem C7_blank_label_counterexample :
    flightOfRec ⟨some " ", some (PyFloat.finite 1), some (PyFloat.finite 2),
        some (PyFloat.finite 3)⟩ =
      some ⟨"", PyFloat.finite 2, PyFloat.finite 1, PyFloat.finite 3⟩ ∧
    ("" : String) ≠ "Unknown" := by
  refine ⟨by decide, by decide⟩

/-- C7 witness: a padded callsign `"  AB7  "` is kept and stripped. -/
theorem C7_witness :
    (⟨"AB7", PyFloat.finite 2, PyFloat.finite 1,
      PyFloat.finite 3⟩ : FlightOut).callsign = pyStrip "  AB7  " :=
  (C7_label_amended
    ⟨some "  AB7  ", some (PyFloat.finite 1), some (PyFloat.finite 2),
      some (PyFloat.finite 3)⟩
    ⟨"AB7", PyFloat.finite 2, PyFloat.finite 1, PyFloat.finite 3⟩
    (by decide)).2.2 "  AB7  " rfl (by decide)

/-- C8 witness: the raw record `[40, -74, 9]` (altitude in km) becomes the
entity `(40, -74, 9000)` — altitude scaled by 1000, coordinates kept. -/
theorem C8_witness :
    (⟨40, -74, 9000⟩ : BalloonEnt).latitude = 40 ∧
    (⟨40, -74, 9000⟩ : BalloonEnt).longitude = -74 ∧
    (⟨40, -74, 9000⟩ : BalloonEnt).altitude = 9 * 1000 :=
  C8_balloon_altitude_scale 40 (-74) 9 ⟨40, -74, 9000⟩ (by decide)

/-- C9 witness: a concrete run equals its repeat and matches the ordered
`flatMap` characterization. -/
theorem C9_witness :
    detect_risks [⟨"W", 0, 0, 100⟩] [⟨0.5, 0, 600⟩]
      (fun _ => .ok ()) (fun _ _ => 55) =
    .ok ([⟨"W", 0, 0, 100⟩].flatMap
      (alertsOf (fun _ _ => 55) [⟨0.5, 0, 600⟩]
        (balloonPositions [⟨0.5, 0, 600⟩]))) :=
  (C9_detect_deterministic_ordering [⟨"W", 0, 0, 100⟩] [⟨"W", 0, 0, 100⟩]
    [⟨0.5, 0, 600⟩] [⟨0.5, 0, 600⟩]
    (fun _ => .ok ()) (fun _ => .ok ()) (fun _ _ => 55) (fun _ _ => 55)
    rfl rfl rfl rfl (by decide) (by decide) rfl (by decide) (by decide)).2

/-- C10 witness: a concrete state-threading run returns the caller's heap
unchanged alongside the alert it found. -/
theorem C10_witness :
    detect_risks_st ⟨[⟨"S", 1, 2, 9000⟩], [⟨1.2, 2, 8500⟩]⟩
      (fun _ => .ok ()) (fun _ _ => 20) =
    .ok (⟨[⟨"S", 1, 2, 9000⟩], [⟨1.2, 2, 8500⟩]⟩,
      [⟨"S", 1, 2, 9000, riskMsg, 20, 500⟩]) ∧
    (⟨[⟨"S", 1, 2, 9000⟩], [⟨1.2, 2, 8500⟩]⟩ : PyHeap).flights =
      [⟨"S", 1, 2, 9000⟩] :=
  ⟨by decide,
   (C10_detect_risks_frame ⟨[⟨"S", 1, 2, 9000⟩], [⟨1.2, 2, 8500⟩]⟩
      (fun _ => .ok ()) (fun _ _ => 20)
      ⟨[⟨"S", 1, 2, 9000⟩], [⟨1.2, 2, 8500⟩]⟩
      [⟨"S", 1, 2, 9000, riskMsg, 20, 500⟩] (by decide)).1.trans rfl⟩

end ConcreteRuns
